import Mathlib

/-
Verification of the Tool Dispatch & Access-Gated Proxy subsystem of the
portainer-mcp server (src/internal/mcp/server.go) against its
natural-language specification.

The Go file under src/ contains the server construction
(NewPortainerMCPServer, with the tools.yaml load, the Portainer version
check and the functional options) and the registration helper
addToolIfExists; those are embedded here directly from the source.
The dispatch router, the argument validation and the Docker/Kubernetes
proxy handlers live in repository packages that are not part of src/
(pkg/toolgen and the tool handler files); those parts are modelled from
the specification, and each such definition is marked
"Modelled from the spec:".
-/

set_option autoImplicit false

namespace PortainerMCP

/-- A structured argument value carried by a CallRequest
(spec section 3: arguments are a mapping from field name to value). -/
inductive Value where
  | str (s : String)
  | num (n : Int)
  | boolean (b : Bool)
  | obj (fields : List (String × Value))

/-- The arguments of a CallRequest: a mapping from field name to value. -/
abbrev Arguments := List (String × Value)

/-- The type of a schema field (spec section 3: field names, types,
required/optional). -/
inductive FieldType where
  | str
  | num
  | boolean
deriving DecidableEq

/-- One field of an input schema: name, type, required flag. -/
structure FieldSpec where
  fname : String
  ftype : FieldType
  required : Bool
deriving DecidableEq

/-- Structural description of the accepted arguments of a tool. -/
structure InputSchema where
  fields : List FieldSpec
deriving DecidableEq

/-- A declared tool: name, description, input schema and the
mutating/non-mutating classification (spec section 3, ToolDefinition). -/
structure ToolDefinition where
  name : String
  description : String
  inputSchema : InputSchema
  mutating : Bool
deriving DecidableEq

/-- A raw HTTP request forwarded by the proxy bridge
(spec section 3, ProxyRequest). -/
structure ProxyRequest where
  method : String
  path : String
  queryParams : String
  headers : List (String × String)
  body : String
deriving DecidableEq

/-- The upstream response carried back by the proxy bridge
(spec section 3, ProxyResponse). -/
structure ProxyResponse where
  statusCode : Nat
  headers : List (String × String)
  body : String
deriving DecidableEq

/-- The success payload of a CallResult: either handler text or a proxied
upstream response (status code and body preserved byte-for-byte). -/
inductive Payload where
  | text (s : String)
  | proxy (statusCode : Nat) (body : String)
deriving DecidableEq

/-- Failure kinds of the per-call error taxonomy (spec section 7). -/
inductive FailureKind where
  | unknownTool
  | invalidArguments
  | handlerFailure
  | upstreamUnreachable
  | responseTooLarge
deriving DecidableEq

/-- A CallResult: exactly one of success payload or failure descriptor
(kind plus message). -/
inductive CallResult where
  | success (payload : Payload)
  | failure (kind : FailureKind) (message : String)
deriving DecidableEq

/-- A protocol call: tool name and arguments (spec section 3, CallRequest). -/
structure CallRequest where
  toolName : String
  arguments : Arguments

/-- A handler returns a CallResult together with the trace of upstream
HTTP requests it issued (empty when no network call was made). -/
abbrev Handler := Arguments → CallResult × List ProxyRequest

/-- First-match lookup in an association list keyed by strings.
Registration prepends, so the first match is the most recent binding,
matching Go map insertion (last write wins). -/
def lookupTool {α : Type} : List (String × α) → String → Option α
  | [], _ => none
  | (k, v) :: rest, name => if k = name then some v else lookupTool rest name

/-- Model of the PortainerClient interface: only GetVersion is relevant to
the embedded construction path; its one-shot result stands for the call. -/
structure ClientModel where
  getVersion : Except String String

/-- The server state: client, loaded tool catalog, read-only flag
(source lines 83-88), plus the registry of bound tools and the log trace
written by addToolIfExists. -/
structure PortainerMCPServer where
  cli : ClientModel
  tools : List (String × ToolDefinition)
  readOnly : Bool
  registered : List (String × (ToolDefinition × Handler))
  logs : List String

/-- The AccessGuard predicate (spec section 4.2): allowed unless the server
is read-only and the definition is mutating. -/
def isAllowed (readOnly : Bool) (d : ToolDefinition) : Bool :=
  !(readOnly && d.mutating)

/-- The log line written by addToolIfExists when a tool name is absent from
the catalog (source line 231). -/
def toolNotFoundLog (toolName : String) : String :=
  "Tool " ++ toolName ++ " not found, will not be registered for MCP usage"

/-- Embedding of addToolIfExists (source lines 227-233): if the name exists
in the tools map, bind it in the registry; otherwise log and do nothing. -/
def addToolIfExists (s : PortainerMCPServer) (toolName : String) (handler : Handler) :
    PortainerMCPServer :=
  match lookupTool s.tools toolName with
  | some tool => { s with registered := (toolName, (tool, handler)) :: s.registered }
  | none => { s with logs := s.logs ++ [toolNotFoundLog toolName] }

/-- Modelled from the spec: the registration call sites that gate mutating
tools on the read-only flag are in handler files absent from src/.
Spec section 4.3: look up the name in the catalog; if absent, log and do
nothing; if present and AccessGuard.isAllowed holds, bind it via
addToolIfExists; otherwise skip silently. -/
def registerIfPresent (s : PortainerMCPServer) (name : String) (handler : Handler) :
    PortainerMCPServer :=
  match lookupTool s.tools name with
  | some d => if isAllowed s.readOnly d then addToolIfExists s name handler else s
  | none => addToolIfExists s name handler

/-- Register a list of (name, handler) pairs in order, as server
construction does once per known handler at startup. -/
def registerAll (s : PortainerMCPServer) (hs : List (String × Handler)) :
    PortainerMCPServer :=
  hs.foldl (fun acc nh => registerIfPresent acc nh.1 nh.2) s

/-- Look up a string argument in the call arguments. -/
def getStringArg (args : Arguments) (key : String) : Option String :=
  match lookupTool args key with
  | some (.str s) => some s
  | _ => none

/-- Does a value of the given field type match the argument value. -/
def typeMatches : FieldType → Value → Bool
  | .str, .str _ => true
  | .num, .num _ => true
  | .boolean, .boolean _ => true
  | _, _ => false

/-- Modelled from the spec: argument validation against the input schema is
performed by dispatch code absent from src/. Validate one field: a missing
required field or a present field of the wrong type is an error naming the
field. -/
def validateField (args : Arguments) (f : FieldSpec) : Option String :=
  match lookupTool args f.fname with
  | some v => if typeMatches f.ftype v then none else some f.fname
  | none => if f.required then some f.fname else none

/-- Modelled from the spec: validate all schema fields in order and report
the first offending field, if any. -/
def validateArgs (schema : InputSchema) (args : Arguments) : Option String :=
  go schema.fields
where
  /-- Walk the field specs and return the first validation error. -/
  go : List FieldSpec → Option String
    | [] => none
    | f :: fs =>
      match validateField args f with
      | some e => some e
      | none => go fs

/-- Modelled from the spec (section 4.3): dispatch looks up the tool name,
fails with UnknownTool if absent, validates the arguments against the
definition's input schema, fails with InvalidArguments naming the offending
field before invoking the handler, and otherwise invokes the bound
handler. The second component is the trace of upstream requests issued. -/
def dispatch (s : PortainerMCPServer) (req : CallRequest) :
    CallResult × List ProxyRequest :=
  match lookupTool s.registered req.toolName with
  | none => (.failure .unknownTool ("unknown tool: " ++ req.toolName), [])
  | some (d, h) =>
    match validateArgs d.inputSchema req.arguments with
    | some field => (.failure .invalidArguments ("invalid argument: " ++ field), [])
    | none => h req.arguments

/-- Split a character list into the segments between slash characters. -/
def splitSegs : List Char → List Char → List (List Char)
  | [], acc => [acc.reverse]
  | c :: cs, acc =>
    if c = '/' then acc.reverse :: splitSegs cs [] else splitSegs cs (c :: acc)

/-- Modelled from the spec: a path contains a dot-dot traversal segment. -/
def hasDotDotSegment (p : String) : Bool :=
  (splitSegs p.data []).any (fun seg => seg = ['.', '.'])

/-- Modelled from the spec: a path is an absolute URL rather than a
relative path under the engine API root. -/
def isAbsoluteUrl (p : String) : Bool :=
  "http://".data.isPrefixOf p.data || "https://".data.isPrefixOf p.data

/-- Modelled from the spec (section 4.4): the mutating classification of a
proxy call is decided per call from the HTTP method carried in the
arguments: GET is non-mutating, any other method is mutating. -/
def proxyCallMutating (method : String) : Bool :=
  method ≠ "GET"

/-- Extract header pairs from the optional headers argument object. -/
def getHeadersArg (args : Arguments) : List (String × String) :=
  match lookupTool args "headers" with
  | some (.obj kvs) =>
    kvs.filterMap (fun kv =>
      match kv.2 with
      | .str s => some (kv.1, s)
      | _ => none)
  | _ => []

/-- Build the forwarded ProxyRequest from the validated method, path and
the optional query, headers and body arguments. -/
def mkProxyRequest (method path : String) (args : Arguments) : ProxyRequest :=
  { method := method
    path := path
    queryParams := (getStringArg args "queryParams").getD ""
    headers := getHeadersArg args
    body := (getStringArg args "body").getD "" }

/-- Modelled from the spec (section 4.4): the proxy-bridge handler, shared
shape of the Docker and Kubernetes proxy tools (their handler files are
absent from src/). Fails with InvalidArguments when method or path is
missing or the path has a dot-dot segment or is an absolute URL, without
issuing any upstream request; rejects mutating (non-GET) calls in
read-only mode without forwarding; otherwise forwards one request to the
upstream, mapping network failure (none) to UpstreamUnreachable and any
upstream response, 2xx or not, to a success payload carrying the real
status code and body. The upstream is a function from request to optional
response; none models connection refused or timeout. -/
def proxyHandler (readOnly : Bool) (upstream : ProxyRequest → Option ProxyResponse)
    (args : Arguments) : CallResult × List ProxyRequest :=
  match getStringArg args "method" with
  | none => (.failure .invalidArguments "invalid argument: method", [])
  | some m =>
    match getStringArg args "path" with
    | none => (.failure .invalidArguments "invalid argument: path", [])
    | some p =>
      if hasDotDotSegment p || isAbsoluteUrl p then
        (.failure .invalidArguments "invalid argument: path", [])
      else if readOnly && proxyCallMutating m then
        (.failure .handlerFailure "mutating proxy call rejected in read-only mode", [])
      else
        let req := mkProxyRequest m p args
        match upstream req with
        | none => (.failure .upstreamUnreachable "upstream unreachable", [req])
        | some resp => (.success (.proxy resp.statusCode resp.body), [req])

/-- A tools.yaml compatibility version, major.minor. -/
structure ToolsVersion where
  major : Nat
  minor : Nat
deriving DecidableEq

/-- Version comparison: the declared source version satisfies the runtime
minimum when it is at least the minimum, ordered lexicographically. -/
def versionAtLeast (v minV : ToolsVersion) : Bool :=
  (minV.major < v.major) || (minV.major = v.major && minV.minor ≤ v.minor)

/-- MinimumToolsVersion (source line 19): minimum supported version "1.0"
of the tools.yaml file. -/
def MinimumToolsVersion : ToolsVersion := ⟨1, 0⟩

/-- SupportedPortainerVersion (source line 21): the only Portainer server
version this tool supports. -/
def SupportedPortainerVersion : String := "2.31.2"

/-- One declared entry of the tools source document; the schema is absent
when the entry is malformed. -/
structure RawToolEntry where
  name : String
  description : String
  schema : Option InputSchema
  mutating : Bool

/-- Modelled from the spec: an entry is malformed when its name or its
schema is missing (spec section 4.1). -/
def malformedEntry (e : RawToolEntry) : Bool :=
  e.name = "" || e.schema.isNone

/-- The tools source document: a top-level compatibility version and the
list of tool declarations (spec section 6). -/
structure ToolsSource where
  version : ToolsVersion
  entries : List RawToolEntry

/-- The startup-fatal load error of the catalog loader. -/
inductive LoadError where
  | schemaError (message : String)

/-- The message carried by a load error. -/
def LoadError.message : LoadError → String
  | .schemaError m => m

/-- Modelled from the spec: pkg/toolgen.LoadToolsFromYAML is absent from
src/. Spec section 4.1: fails with SchemaError if the declared version
does not satisfy the runtime minimum or any entry is malformed; otherwise
returns the parsed set of tool definitions keyed by name. -/
def LoadToolsFromYAML (minVersion : ToolsVersion) (src : ToolsSource) :
    Except LoadError (List (String × ToolDefinition)) :=
  if versionAtLeast src.version minVersion = false then
    .error (.schemaError "incompatible tools version")
  else if src.entries.any malformedEntry then
    .error (.schemaError "malformed tool entry")
  else
    .ok (src.entries.map fun e =>
      (e.name, ⟨e.name, e.description, e.schema.getD ⟨[]⟩, e.mutating⟩))

/-- Configurable options for the server (source lines 94-98). -/
structure serverOptions where
  client : Option ClientModel
  readOnly : Bool
  disableVersionCheck : Bool

/-- A functional server option (source line 91). -/
abbrev ServerOption := serverOptions → serverOptions

/-- WithClient (source lines 102-106): sets a custom client. -/
def WithClient (client : ClientModel) : ServerOption :=
  fun opts => { opts with client := some client }

/-- WithReadOnly (source lines 110-114): sets read-only mode. -/
def WithReadOnly (readOnly : Bool) : ServerOption :=
  fun opts => { opts with readOnly := readOnly }

/-- WithDisableVersionCheck (source lines 118-122): disables the Portainer
server version check. -/
def WithDisableVersionCheck (disable : Bool) : ServerOption :=
  fun opts => { opts with disableVersionCheck := disable }

/-- Apply the functional options in order to the zero-value options record,
as the loop at source lines 144-148 does. -/
def applyOptions (options : List ServerOption) : serverOptions :=
  options.foldl (fun opts option => option opts) ⟨none, false, false⟩

/-- Embedding of NewPortainerMCPServer (source lines 143-184). Loads the
tools (propagating the load failure), selects the injected client or the
default one built from serverURL and token (the external
client.NewPortainerClient, passed here as defaultClient), performs the
version check unless disabled, and returns the configured server with an
empty registry. The second component records whether GetVersion was
called on the client. -/
def NewPortainerMCPServer (src : ToolsSource) (options : List ServerOption)
    (defaultClient : ClientModel) :
    Except String PortainerMCPServer × Bool :=
  let opts := applyOptions options
  match LoadToolsFromYAML MinimumToolsVersion src with
  | .error e => (.error ("failed to load tools: " ++ e.message), false)
  | .ok tools =>
    let portainerClient := opts.client.getD defaultClient
    if opts.disableVersionCheck then
      (.ok ⟨portainerClient, tools, opts.readOnly, [], []⟩, false)
    else
      match portainerClient.getVersion with
      | .error e => (.error ("failed to get Portainer server version: " ++ e), true)
      | .ok version =>
        if version = SupportedPortainerVersion then
          (.ok ⟨portainerClient, tools, opts.readOnly, [], []⟩, true)
        else
          (.error ("unsupported Portainer server version: " ++ version), true)

/-- Dispatch against the result of server construction: when construction
failed there is no server and no tool is dispatchable, so every call is an
unknown tool. -/
def dispatchOfResult (r : Except String PortainerMCPServer) (req : CallRequest) :
    CallResult × List ProxyRequest :=
  match r with
  | .error _ => (.failure .unknownTool ("unknown tool: " ++ req.toolName), [])
  | .ok s => dispatch s req

/-
Concrete fixtures used to evaluate the definitions on explicit inputs.
-/

/-- A client reporting the supported Portainer version. -/
def cliOk : ClientModel := ⟨.ok "2.31.2"⟩

/-- A client reporting an older Portainer version. -/
def cliOld : ClientModel := ⟨.ok "2.19.4"⟩

/-- A client whose GetVersion call fails at the transport level. -/
def cliBroken : ClientModel := ⟨.error "connection refused"⟩

/-- A schema with one required numeric field. -/
def idSchema : InputSchema := ⟨[⟨"id", .num, true⟩]⟩

/-- A mutating tool definition. -/
def mutDef : ToolDefinition := ⟨"updateTag", "update a tag", idSchema, true⟩

/-- A non-mutating tool definition. -/
def getDef : ToolDefinition := ⟨"getTags", "list tags", ⟨[]⟩, false⟩

/-- A small tool catalog with one mutating and one non-mutating tool. -/
def toolsFix : List (String × ToolDefinition) := [("updateTag", mutDef), ("getTags", getDef)]

/-- A handler that succeeds with plain text and issues no upstream request. -/
def hOk : Handler := fun _ => (.success (.text "ok"), [])

/-- A handler that would issue one upstream request if it ran. -/
def hNet : Handler := fun _ => (.success (.text "net"), [⟨"GET", "x", "", [], ""⟩])

/-- A typed tool bound to a schema requiring a numeric id. -/
def tagDef : ToolDefinition := ⟨"getTag", "get one tag", idSchema, false⟩

/-- A server whose registry binds getTag to a network-issuing handler. -/
def sC3 : PortainerMCPServer :=
  ⟨cliOk, [("getTag", tagDef)], false, [("getTag", (tagDef, hNet))], []⟩

/-- The exact upstream body of the round-trip fixture. -/
def okBody : String := "\x7b\"ok\":true\x7d"

/-- A stub upstream answering every request with status 201 and okBody. -/
def stubUpstream201 : ProxyRequest → Option ProxyResponse :=
  fun _ => some ⟨201, [], okBody⟩

/-- A stub upstream that is unreachable on every request. -/
def upstreamNone : ProxyRequest → Option ProxyResponse := fun _ => none

/-- A stub upstream answering every request with status 500 and a body. -/
def upstream500 : ProxyRequest → Option ProxyResponse :=
  fun _ => some ⟨500, [], "oops"⟩

/-- The input schema of the proxy tools: required method and path strings. -/
def proxySchema : InputSchema := ⟨[⟨"method", .str, true⟩, ⟨"path", .str, true⟩]⟩

/-- The Docker proxy tool definition. -/
def dockerProxyDef : ToolDefinition := ⟨"dockerProxy", "docker proxy", proxySchema, false⟩

/-- A GET proxy call with empty body. -/
def argsC6 : Arguments := [("method", .str "GET"), ("path", .str "containers/json")]

/-- A GET proxy call used for the read-only reachability fixture. -/
def argsGET : Arguments := [("method", .str "GET"), ("path", .str "containers/json")]

/-- A DELETE proxy call used for the read-only unreachability fixture. -/
def argsDEL : Arguments := [("method", .str "DELETE"), ("path", .str "containers/abc")]

/-- A GET proxy call used for the upstream-failure fixture. -/
def argsC5 : Arguments := [("method", .str "GET"), ("path", .str "version")]

/-- A server whose registry binds the Docker proxy tool to the proxy
handler over the 201 stub upstream. -/
def sC6 : PortainerMCPServer :=
  ⟨cliOk, [("dockerProxy", dockerProxyDef)], false,
   [("dockerProxy", (dockerProxyDef, proxyHandler false stubUpstream201))], []⟩

/-- A wellformed tools source entry. -/
def entryGood : RawToolEntry := ⟨"getTags", "list tags", some ⟨[]⟩, false⟩

/-- A wellformed tools source at the minimum supported version. -/
def srcGood : ToolsSource := ⟨⟨1, 0⟩, [entryGood]⟩

/-- A tools source whose version predates the runtime minimum. -/
def srcOld : ToolsSource := ⟨⟨0, 9⟩, [entryGood]⟩

/-- A server with a small catalog and an empty registry. -/
def sC8 : PortainerMCPServer := ⟨cliOk, [("getTags", getDef)], false, [], []⟩

/-
Helper lemmas shared by the claim theorems.
-/

/-- Registration does not change the loaded tool catalog. -/
theorem registerIfPresent_tools (s : PortainerMCPServer) (n : String) (h : Handler) :
    (registerIfPresent s n h).tools = s.tools := by
  unfold registerIfPresent addToolIfExists
  cases hl : lookupTool s.tools n with
  | none => simp [hl]
  | some d =>
    by_cases ha : isAllowed s.readOnly d
    · simp [ha, hl]
    · simp [ha]

/-- Registration does not change the read-only flag. -/
theorem registerIfPresent_readOnly (s : PortainerMCPServer) (n : String) (h : Handler) :
    (registerIfPresent s n h).readOnly = s.readOnly := by
  unfold registerIfPresent addToolIfExists
  cases hl : lookupTool s.tools n with
  | none => simp [hl]
  | some d =>
    by_cases ha : isAllowed s.readOnly d
    · simp [ha, hl]
    · simp [ha]

/-- One registration step never binds a mutating tool name in read-only
mode: if the catalog maps the name to a mutating definition, the server is
read-only and the name is unbound, it stays unbound. -/
theorem registerIfPresent_not_bound (s : PortainerMCPServer) (n : String) (h : Handler)
    (name : String) (d : ToolDefinition)
    (hl : lookupTool s.tools name = some d) (hm : d.mutating = true)
    (hro : s.readOnly = true)
    (hnone : lookupTool s.registered name = none) :
    lookupTool (registerIfPresent s n h).registered name = none := by
  unfold registerIfPresent addToolIfExists
  cases e : lookupTool s.tools n with
  | none => simp [e, hnone]
  | some d2 =>
    by_cases ha : isAllowed s.readOnly d2
    · simp [ha, e]
      by_cases hn : n = name
      · subst hn
        rw [e] at hl
        cases hl
        rw [hro, isAllowed, hm] at ha
        simp at ha
      · simp [lookupTool, hn, hnone]
    · simp [ha, hnone]

/-- Registration of any handler list never binds a mutating tool name in
read-only mode. -/
theorem registerAll_not_bound (name : String) (d : ToolDefinition)
    (hs : List (String × Handler)) :
    ∀ s : PortainerMCPServer,
    lookupTool s.tools name = some d → d.mutating = true → s.readOnly = true →
    lookupTool s.registered name = none →
    lookupTool (registerAll s hs).registered name = none := by
  induction hs with
  | nil =>
    intro s _ _ _ h4
    simpa [registerAll] using h4
  | cons nh rest ih =>
    intro s h1 h2 h3 h4
    have hstep : registerAll s (nh :: rest) =
        registerAll (registerIfPresent s nh.1 nh.2) rest := rfl
    rw [hstep]
    refine ih (registerIfPresent s nh.1 nh.2) ?_ h2 ?_ ?_
    · rw [registerIfPresent_tools]; exact h1
    · rw [registerIfPresent_readOnly]; exact h3
    · exact registerIfPresent_not_bound s nh.1 nh.2 name d h1 h2 h3 h4

/-
Claim theorems.
-/

/-- C1: for every tool definition with mutating = true, when the server is
read-only, the tool name is never bound into the registry by registration,
and dispatch of a CallRequest naming that tool returns UnknownTool — never
InvalidArguments and never success. -/
theorem mutating_tool_unknown_in_readonly_mode
    (cli : ClientModel) (tools : List (String × ToolDefinition))
    (hs : List (String × Handler)) (name : String) (d : ToolDefinition)
    (args : Arguments)
    (hl : lookupTool tools name = some d) (hm : d.mutating = true) :
    lookupTool (registerAll ⟨cli, tools, true, [], []⟩ hs).registered name = none ∧
    dispatch (registerAll ⟨cli, tools, true, [], []⟩ hs) ⟨name, args⟩ =
      (.failure .unknownTool ("unknown tool: " ++ name), []) := by
  have hnone := registerAll_not_bound name d hs ⟨cli, tools, true, [], []⟩ hl hm rfl rfl
  refine ⟨hnone, ?_⟩
  unfold dispatch
  simp [hnone]

/-- Witness for C1 at a concrete catalog, handler list and call. -/
theorem mutating_tool_unknown_in_readonly_mode_witness :
    lookupTool (registerAll ⟨cliOk, toolsFix, true, [], []⟩
      [("updateTag", hOk), ("getTags", hOk)]).registered "updateTag" = none ∧
    dispatch (registerAll ⟨cliOk, toolsFix, true, [], []⟩
      [("updateTag", hOk), ("getTags", hOk)]) ⟨"updateTag", []⟩ =
      (.failure .unknownTool ("unknown tool: " ++ "updateTag"), []) :=
  mutating_tool_unknown_in_readonly_mode cliOk toolsFix
    [("updateTag", hOk), ("getTags", hOk)] "updateTag" mutDef [] rfl rfl

/-- C2: the mutating classification of a proxy call is decided per call
from the HTTP method in the arguments: GET is non-mutating (still
forwarded in read-only mode), and any other method is mutating and never
forwarded upstream in read-only mode. -/
theorem proxy_mutating_decided_per_call
    (upstream : ProxyRequest → Option ProxyResponse) (args : Arguments)
    (m p : String)
    (hm : getStringArg args "method" = some m)
    (hp : getStringArg args "path" = some p)
    (hd : hasDotDotSegment p = false) (ha : isAbsoluteUrl p = false) :
    (proxyCallMutating m = false ↔ m = "GET") ∧
    (m ≠ "GET" → (proxyHandler true upstream args).2 = []) ∧
    (m = "GET" → (proxyHandler true upstream args).2 = [mkProxyRequest m p args]) := by
  refine ⟨by simp [proxyCallMutating], ?_, ?_⟩
  · intro hne
    unfold proxyHandler
    rw [hm, hp]
    simp [hd, ha, proxyCallMutating, hne]
  · intro heq
    subst heq
    unfold proxyHandler
    rw [hm, hp]
    simp [hd, ha, proxyCallMutating]
    cases upstream (mkProxyRequest "GET" p args) <;> simp

/-- Witness for C2: the same proxy tool in read-only mode forwards a GET
call and never forwards a DELETE call. -/
theorem proxy_mutating_decided_per_call_witness :
    (proxyHandler true stubUpstream201 argsDEL).2 = [] ∧
    (proxyHandler true stubUpstream201 argsGET).2 =
      [mkProxyRequest "GET" "containers/json" argsGET] :=
  ⟨(proxy_mutating_decided_per_call stubUpstream201 argsDEL "DELETE" "containers/abc"
      rfl rfl (by decide) (by decide)).2.1 (by decide),
   (proxy_mutating_decided_per_call stubUpstream201 argsGET "GET" "containers/json"
      rfl rfl (by decide) (by decide)).2.2 rfl⟩

/-- C3: when the arguments of a call do not match the matched tool's input
schema, dispatch returns InvalidArguments naming the offending field, the
bound handler is never invoked (the result does not depend on it) and no
network request is issued (empty trace). -/
theorem invalid_arguments_before_handler
    (s : PortainerMCPServer) (name : String) (d : ToolDefinition) (h : Handler)
    (args : Arguments) (field : String)
    (hreg : lookupTool s.registered name = some (d, h))
    (hval : validateArgs d.inputSchema args = some field) :
    dispatch s ⟨name, args⟩ =
      (.failure .invalidArguments ("invalid argument: " ++ field), []) := by
  unfold dispatch
  simp [hreg, hval]

/-- Witness for C3: a string passed for a required numeric field is
rejected with the field name and no upstream request, although the bound
handler would have issued one. -/
theorem invalid_arguments_before_handler_witness :
    dispatch sC3 ⟨"getTag", [("id", .str "nope")]⟩ =
      (.failure .invalidArguments ("invalid argument: " ++ "id"), []) :=
  invalid_arguments_before_handler sC3 "getTag" tagDef hNet
    [("id", .str "nope")] "id" rfl rfl

/-- C4: a proxy call whose method or path is missing, or whose path has a
dot-dot segment or is an absolute URL, returns InvalidArguments and issues
no upstream request, in any mode and against any upstream. -/
theorem proxy_invalid_path_no_upstream
    (ro : Bool) (upstream : ProxyRequest → Option ProxyResponse) (args : Arguments)
    (h : getStringArg args "method" = none ∨ getStringArg args "path" = none ∨
         ∃ p, getStringArg args "path" = some p ∧
           (hasDotDotSegment p = true ∨ isAbsoluteUrl p = true)) :
    ∃ msg, proxyHandler ro upstream args = (.failure .invalidArguments msg, []) := by
  unfold proxyHandler
  rcases h with hm | hp | ⟨p, hp, hbad⟩
  · rw [hm]
    exact ⟨"invalid argument: method", rfl⟩
  · cases e : getStringArg args "method" with
    | none => exact ⟨"invalid argument: method", rfl⟩
    | some m =>
      rw [hp]
      exact ⟨"invalid argument: path", rfl⟩
  · cases e : getStringArg args "method" with
    | none => exact ⟨"invalid argument: method", rfl⟩
    | some m =>
      rw [hp]
      refine ⟨"invalid argument: path", ?_⟩
      rcases hbad with hb | hb <;> simp [hb]

/-- Witness for C4: a path with a dot-dot traversal segment is rejected
without any upstream request. -/
theorem proxy_invalid_path_no_upstream_witness :
    ∃ msg, proxyHandler false stubUpstream201
      [("method", .str "GET"), ("path", .str "../secrets")] =
      (.failure .invalidArguments msg, []) :=
  proxy_invalid_path_no_upstream false stubUpstream201
    [("method", .str "GET"), ("path", .str "../secrets")]
    (Or.inr (Or.inr ⟨"../secrets", rfl, Or.inl (by decide)⟩))

/-- C5: on a forwarded proxy call, a network-level failure reaching the
upstream yields UpstreamUnreachable, while an upstream response with any
HTTP status — 2xx or not — is a success carrying the upstream's real
status code and body. -/
theorem upstream_failure_vs_http_status
    (upstream : ProxyRequest → Option ProxyResponse) (args : Arguments)
    (m p : String)
    (hm : getStringArg args "method" = some m)
    (hp : getStringArg args "path" = some p)
    (hd : hasDotDotSegment p = false) (ha : isAbsoluteUrl p = false) :
    (upstream (mkProxyRequest m p args) = none →
      proxyHandler false upstream args =
        (.failure .upstreamUnreachable "upstream unreachable",
         [mkProxyRequest m p args])) ∧
    (∀ resp, upstream (mkProxyRequest m p args) = some resp →
      proxyHandler false upstream args =
        (.success (.proxy resp.statusCode resp.body), [mkProxyRequest m p args])) := by
  constructor
  · intro hu
    unfold proxyHandler
    rw [hm, hp]
    simp [hd, ha, hu]
  · intro resp hu
    unfold proxyHandler
    rw [hm, hp]
    simp [hd, ha, hu]

/-- Witness for C5: the same GET call yields UpstreamUnreachable against an
unreachable upstream and a success carrying status 500 against an upstream
answering 500. -/
theorem upstream_failure_vs_http_status_witness :
    proxyHandler false upstreamNone argsC5 =
      (.failure .upstreamUnreachable "upstream unreachable",
       [mkProxyRequest "GET" "version" argsC5]) ∧
    proxyHandler false upstream500 argsC5 =
      (.success (.proxy 500 "oops"), [mkProxyRequest "GET" "version" argsC5]) :=
  ⟨(upstream_failure_vs_http_status upstreamNone argsC5 "GET" "version"
      rfl rfl (by decide) (by decide)).1 rfl,
   (upstream_failure_vs_http_status upstream500 argsC5 "GET" "version"
      rfl rfl (by decide) (by decide)).2 ⟨500, [], "oops"⟩ rfl⟩

/-- C6: round-trip fidelity — dispatching a GET proxy call with empty body
against an upstream answering 201 with body okBody yields a success whose
embedded status is 201 and whose body is okBody exactly, and the single
forwarded request carried method GET and an empty body. -/
theorem proxy_roundtrip_201 :
    dispatch sC6 ⟨"dockerProxy", argsC6⟩ =
      (.success (.proxy 201 okBody), [⟨"GET", "containers/json", "", [], ""⟩]) := by
  decide

/-- C7: when the tools source declares a version below the runtime minimum
or contains a malformed entry, the loader fails with a SchemaError, server
construction returns an error with no server instance, and no tool is ever
dispatchable. -/
theorem schema_error_no_server
    (src : ToolsSource) (options : List ServerOption) (dflt : ClientModel)
    (h : versionAtLeast src.version MinimumToolsVersion = false ∨
         src.entries.any malformedEntry = true) :
    (∃ msg, LoadToolsFromYAML MinimumToolsVersion src = .error (.schemaError msg)) ∧
    (∃ emsg, (NewPortainerMCPServer src options dflt).1 = .error emsg) ∧
    (∀ req, dispatchOfResult (NewPortainerMCPServer src options dflt).1 req =
        (.failure .unknownTool ("unknown tool: " ++ req.toolName), [])) := by
  have hload : ∃ msg,
      LoadToolsFromYAML MinimumToolsVersion src = .error (.schemaError msg) := by
    unfold LoadToolsFromYAML
    rcases h with hv | hm
    · rw [hv]
      exact ⟨"incompatible tools version", by simp⟩
    · by_cases hv2 : versionAtLeast src.version MinimumToolsVersion = false
      · rw [hv2]
        exact ⟨"incompatible tools version", by simp⟩
      · exact ⟨"malformed tool entry", by simp [hv2, hm]⟩
  obtain ⟨msg, hmsg⟩ := hload
  refine ⟨⟨msg, hmsg⟩, ?_, ?_⟩
  · unfold NewPortainerMCPServer
    rw [hmsg]
    exact ⟨"failed to load tools: " ++ LoadError.message (.schemaError msg), rfl⟩
  · intro req
    unfold dispatchOfResult NewPortainerMCPServer
    rw [hmsg]

/-- Witness for C7: a tools source at version 0.9 fails the load and a call
against the failed construction is an unknown tool. -/
theorem schema_error_no_server_witness :
    (∃ msg, LoadToolsFromYAML MinimumToolsVersion srcOld = .error (.schemaError msg)) ∧
    dispatchOfResult (NewPortainerMCPServer srcOld [] cliOk).1 ⟨"getTags", []⟩ =
      (.failure .unknownTool ("unknown tool: " ++ "getTags"), []) :=
  ⟨(schema_error_no_server srcOld [] cliOk (Or.inl (by decide))).1,
   (schema_error_no_server srcOld [] cliOk (Or.inl (by decide))).2.2 ⟨"getTags", []⟩⟩

/-- C8: registering a handler under a name absent from the loaded tool
catalog appends one diagnostic log line and changes nothing else: the
registry, catalog, client and mode are unchanged and no error is raised
(the function is total). -/
theorem addToolIfExists_absent_logs_only
    (s : PortainerMCPServer) (toolName : String) (handler : Handler)
    (h : lookupTool s.tools toolName = none) :
    addToolIfExists s toolName handler =
      { s with logs := s.logs ++ [toolNotFoundLog toolName] } := by
  unfold addToolIfExists
  rw [h]

/-- Witness for C8 at a concrete server and absent tool name. -/
theorem addToolIfExists_absent_logs_only_witness :
    addToolIfExists sC8 "nonexistent" hOk =
      { sC8 with logs := sC8.logs ++ [toolNotFoundLog "nonexistent"] } :=
  addToolIfExists_absent_logs_only sC8 "nonexistent" hOk rfl

/-- C9: with the version check enabled and the backend reporting version v,
construction succeeds past the version check iff v is exactly "2.31.2";
any other reported version yields an error and no server instance. -/
theorem version_check_exact_equality
    (src : ToolsSource) (options : List ServerOption) (dflt cli : ClientModel)
    (v : String) (tl : List (String × ToolDefinition))
    (hload : LoadToolsFromYAML MinimumToolsVersion src = .ok tl)
    (hopts : (applyOptions options).disableVersionCheck = false)
    (hcli : (applyOptions options).client = some cli)
    (hv : cli.getVersion = .ok v) :
    (∃ s, (NewPortainerMCPServer src options dflt).1 = .ok s) ↔ v = "2.31.2" := by
  unfold NewPortainerMCPServer
  rw [hload]
  simp [hopts, hcli, hv, SupportedPortainerVersion]
  by_cases hveq : v = "2.31.2"
  · simp [hveq]
  · simp [hveq]

/-- Witness for C9: a backend reporting 2.19.4 fails construction, phrased
through the proved equivalence. -/
theorem version_check_exact_equality_witness :
    (∃ s, (NewPortainerMCPServer srcGood [WithClient cliOld] cliOk).1 = .ok s) ↔
      "2.19.4" = "2.31.2" :=
  version_check_exact_equality srcGood [WithClient cliOld] cliOk cliOld "2.19.4"
    [("getTags", ⟨"getTags", "list tags", ⟨[]⟩, false⟩)] rfl rfl rfl rfl

/-- C10: when the options disable the version check, GetVersion is never
called (the call flag is false) and construction succeeds with the loaded
tools regardless of what the backend would report. -/
theorem disable_version_check_bypasses
    (src : ToolsSource) (options : List ServerOption) (dflt : ClientModel)
    (tl : List (String × ToolDefinition))
    (hload : LoadToolsFromYAML MinimumToolsVersion src = .ok tl)
    (hopt : (applyOptions options).disableVersionCheck = true) :
    NewPortainerMCPServer src options dflt =
      (.ok ⟨((applyOptions options).client).getD dflt, tl,
            (applyOptions options).readOnly, [], []⟩, false) := by
  unfold NewPortainerMCPServer
  rw [hload]
  simp [hopt]

/-- Witness for C10: construction succeeds without calling GetVersion even
though the injected client's GetVersion would fail. -/
theorem disable_version_check_bypasses_witness :
    NewPortainerMCPServer srcGood [WithDisableVersionCheck true, WithClient cliBroken]
      cliOk =
      (.ok ⟨cliBroken, [("getTags", ⟨"getTags", "list tags", ⟨[]⟩, false⟩)],
            false, [], []⟩, false) :=
  disable_version_check_bypasses srcGood
    [WithDisableVersionCheck true, WithClient cliBroken] cliOk
    [("getTags", ⟨"getTags", "list tags", ⟨[]⟩, false⟩)] rfl rfl

end PortainerMCP
